import Mathlib

/-!
# Verification of the ProSA home adaptors (bbox, freebox, deye_solar)

Shallow embedding of the three fetcher adaptors of the repository:
`FetcherBBoxAdaptor` (src/bbox.rs), `FetcherFreeboxAdaptor` (src/freebox.rs)
and `FetcherDeyeSolarAdaptor` (src/deye_solar.rs), together with proofs of
the behavioural claims about them.

Modelling conventions:
* Rust string *content* that the adaptors scan positionally (`&str`) is
  modelled as `List Char` (`RStr`); strings only stored and compared
  (JSON map keys, tokens) stay `String`.
* JSON values (`serde_json::Value`) are modelled by `JVal`; JSON numbers are
  modelled as integers (the claims only involve integral JSON numbers).
  `HashMap<String, Value>` / `serde_json::Map` are modelled as association
  lists with lookup semantics.
* Machine integers (`u8`, `u64`) are modelled as `Nat` with explicit `% 256`
  (resp. range checks) where wrap-around / overflow matters.
* `f64` fields are modelled as `ℚ`; the decimal parser is exact on the
  plain decimal forms appearing in the documents the adaptor scrapes.
* `tokio::sync::watch::Sender` channels are modelled by their currently held
  value inside the adaptor state; a `send` both replaces that value and is
  recorded in the publish log returned by the step function.
* Fallible operations return `Option`/`Except`; a Rust panic (index out of
  bounds, or the `u8` subtraction underflow of a debug build) is modelled as
  `Option.none` at the step level.
-/

set_option maxRecDepth 8192

/-! ## JSON value model -/

inductive JVal where
  | null
  | jbool (b : Bool)
  | num (n : Int)
  | str (s : String)
  | arr (elems : List JVal)
  | obj (fields : List (String × JVal))
  deriving Repr

/-- Association-list maps standing for `HashMap<String, Value>` /
`serde_json::Map<String, Value>`. -/
abbrev Jmap := List (String × JVal)

/-- First-occurrence lookup, the map semantics of `HashMap::get`. -/
def jlookup : Jmap → String → Option JVal
  | [], _ => none
  | (k', v') :: rest, k => if k' = k then some v' else jlookup rest k

/-- `HashMap::insert`: replace the value of an existing key in place,
append a fresh key at the end. -/
def insertKV : Jmap → String → JVal → Jmap
  | [], k, v => [(k, v)]
  | (k', v') :: rest, k, v =>
    if k' = k then (k, v) :: rest else (k', v') :: insertKV rest k v

/-- `HashMap::extend`: insert every pair of `other`, overwriting existing
keys (the union-overwrite primitive used by `BBoxApiResponse::merge`). -/
def extendKV (m other : Jmap) : Jmap :=
  other.foldl (fun acc kv => insertKV acc kv.1 kv.2) m

/-- The keys of a map are pairwise distinct (true of any map obtained from a
`HashMap`, which cannot hold duplicate keys). -/
def KeysNodup (m : Jmap) : Prop := (m.map Prod.fst).Nodup

instance (m : Jmap) : Decidable (KeysNodup m) := by
  unfold KeysNodup; infer_instance

/-- `Value::as_str`. -/
def JVal.asStr : JVal → Option String
  | .str s => some s
  | _ => none

/-- `Value::as_object` (returning the field map). -/
def JVal.asObj : JVal → Option Jmap
  | .obj o => some o
  | _ => none

/-- `Value::as_number` (numbers are modelled as integers). -/
def JVal.asNum : JVal → Option Int
  | .num n => some n
  | _ => none

/-- `Value::as_array`. -/
def JVal.asArr : JVal → Option (List JVal)
  | .arr a => some a
  | _ => none

/-- `Value::get(key)`: field access on an object, `None` on anything else. -/
def JVal.get (v : JVal) (k : String) : Option JVal :=
  match v with
  | .obj o => jlookup o k
  | _ => none

/-! ## Rust string helpers (`&str` as `List Char`) -/

/-- Rust string content, modelled character-wise. -/
abbrev RStr := List Char

/-- Turn a Lean string literal into the `RStr` model. -/
def strOf (s : String) : RStr := s.data

/-- `str::starts_with`. -/
def rStartsWith (s p : RStr) : Bool := p.isPrefixOf s

/-- `str::ends_with`. -/
def rEndsWith (s p : RStr) : Bool := p.isSuffixOf s

/-- `str::strip_prefix`. -/
def rStripPrefix (s p : RStr) : Option RStr :=
  if rStartsWith s p then some (s.drop p.length) else none

/-- `str::strip_suffix`. -/
def rStripSuffix (s p : RStr) : Option RStr :=
  if rEndsWith s p then some (s.take (s.length - p.length)) else none

/-- `str::trim_end`: drop trailing whitespace. -/
def rTrimEnd (s : RStr) : RStr := (s.reverse.dropWhile Char.isWhitespace).reverse

/-- Split on a separator character (used for `str::lines` and
`str::split(';')`); every separator occurrence opens a new segment. -/
def splitOnChar (sep : Char) : RStr → List RStr
  | [] => [[]]
  | c :: rest =>
    let r := splitOnChar sep rest
    if c = sep then [] :: r
    else
      match r with
      | [] => [[c]]
      | h :: t => (c :: h) :: t

/-- `str::lines`: split on `\n`, drop the final empty segment produced by a
trailing newline, and strip a trailing `\r` from each line. -/
def rustLines (s : RStr) : List RStr :=
  let parts := splitOnChar '\n' s
  let parts := if parts.getLast? = some [] then parts.dropLast else parts
  parts.map (fun l => ((rStripSuffix l (strOf "\r")).getD l))

/-- Digit-string to `Nat`; `none` on the empty string or any non-digit. -/
def parseDigits (s : RStr) : Option Nat :=
  if s.isEmpty then none
  else
    s.foldl
      (fun acc c =>
        match acc with
        | none => none
        | some n => if c.isDigit then some (n * 10 + (c.toNat - 48)) else none)
      (some 0)

/-- `str::parse::<u64>`: optional leading `+`, digits only, range-checked. -/
def rustParseU64 (s : RStr) : Option Nat :=
  let t := if rStartsWith s (strOf "+") then s.drop 1 else s
  match parseDigits t with
  | some n => if n < 2 ^ 64 then some n else none
  | none => none

/-- `str::parse::<u8>`: optional leading `+`, digits only, range-checked. -/
def rustParseU8 (s : RStr) : Option Nat :=
  let t := if rStartsWith s (strOf "+") then s.drop 1 else s
  match parseDigits t with
  | some n => if n < 256 then some n else none
  | none => none

/-- Decimal scanner for `str::parse::<f64>`, restricted to the plain forms
`[+-]?digits[.digits]?` occurring in the scraped documents: returns the sign,
the integral digits, the fractional digits and the number of fractional
digits. -/
def parseDecParts (s : RStr) : Option (Bool × Nat × Nat × Nat) :=
  let (neg, t) : Bool × RStr :=
    if rStartsWith s (strOf "-") then (true, s.drop 1)
    else if rStartsWith s (strOf "+") then (false, s.drop 1)
    else (false, s)
  match splitOnChar '.' t with
  | [intPart] => (parseDigits intPart).map (fun i => (neg, i, 0, 0))
  | [intPart, fracPart] =>
    match parseDigits intPart, parseDigits fracPart with
    | some i, some f => some (neg, i, f, fracPart.length)
    | _, _ => none
  | _ => none

/-- `str::parse::<f64>` on plain decimals, evaluated exactly in `ℚ`. -/
def rustParseF64 (s : RStr) : Option ℚ :=
  (parseDecParts s).map
    (fun p => (if p.1 then (-1 : ℚ) else 1) * ((p.2.1 : ℚ) + (p.2.2.1 : ℚ) / ((10 : ℚ) ^ p.2.2.2)))

/-! ## Shared fetcher-framework vocabulary

`FetchAction::Http` means "build and send the next request",
`FetchAction::None` ends the cycle quietly; returning `Err` from
`process_http_response` surfaces the cycle to the scheduler as failed. -/

inductive FetchOut where
  | http
  | stop
  | err
  deriving Repr, DecidableEq

/-! ## BBox adaptor (src/bbox.rs)

`FetcherBBoxAdaptor`: password login yielding a `BBOX_ID` session cookie,
then the static chain Cpu → Mem → Wan → Lan → Wifi(2.4) → Wifi(5) → End,
merging every response fragment into `stats` and publishing the merged
snapshot on the single `meter_bbox` watch channel at the End transition. -/

/-- `BBoxFetchState` (the Rust `End` variant is `endState` here, `end` being
reserved in Lean). -/
inductive BBoxFetchState where
  | cpu
  | mem
  | wan
  | lan
  | wifi (high : Bool)
  | endState
  deriving Repr, DecidableEq

/-- `BBoxFetchState::default()` is `Cpu` (the `#[default]` variant). -/
instance : Inhabited BBoxFetchState := ⟨.cpu⟩

/-- `BBoxFetchState::call`: method and URI of the current step. -/
def BBoxFetchState.call : BBoxFetchState → Option (String × String)
  | .cpu => some ("GET", "/api/v1/device/cpu")
  | .mem => some ("GET", "/api/v1/device/mem")
  | .wan => some ("GET", "/api/v1/wan/ip/stats")
  | .lan => some ("GET", "/api/v1/lan/stats")
  | .wifi high =>
    if high then some ("GET", "/api/v1/wireless/5/stats")
    else some ("GET", "/api/v1/wireless/24/stats")
  | .endState => none

/-- `BBoxFetchState::next_state`. -/
def BBoxFetchState.nextState : BBoxFetchState → BBoxFetchState
  | .cpu => .mem
  | .mem => .wan
  | .wan => .lan
  | .lan => .wifi false
  | .wifi false => .wifi true
  | .wifi true => .endState
  | .endState => .endState

/-- `BBoxApiResponse`: one fragment (or the accumulated snapshot), four
optional categories. -/
structure BBoxApiResponse where
  device : Option Jmap
  wan : Option Jmap
  lan : Option Jmap
  wireless : Option Jmap
  deriving Repr

/-- `BBoxApiResponse::default()`: all categories absent. -/
def BBoxApiResponse.empty : BBoxApiResponse := ⟨none, none, none, none⟩

instance : Inhabited BBoxApiResponse := ⟨BBoxApiResponse.empty⟩

/-- The union-overwrite merge of one optional category, as performed inline
for `device`/`wan`/`lan` in `BBoxApiResponse::merge`: an absent incoming
category leaves the snapshot category alone, an incoming category extends an
existing mapping (overwriting duplicate keys) or installs itself wholesale. -/
def mergeCat : Option Jmap → Option Jmap → Option Jmap
  | selfCat, none => selfCat
  | some m, some other => some (extendKV m other)
  | none, some other => some other

/-- The identifier extraction of the wireless (keyed-partition) merge:
`wireless_other.get("ssid").and_then(as_object)` then
`ssid.get("id").and_then(as_number)`, returning the id rendered with
`to_string` together with the ssid object. -/
def ssidIdOf (w : Jmap) : Option (String × Jmap) :=
  match (jlookup w "ssid").bind JVal.asObj with
  | some ssid =>
    match (jlookup ssid "id").bind JVal.asNum with
    | some id => some (toString id, ssid)
    | none => none
  | none => none

/-- `BBoxApiResponse::merge` (src/bbox.rs lines 90-130): `device`/`wan`/`lan`
are union-overwrite; `wireless` stores the incoming ssid object keyed by its
`id` field, silently dropping a fragment whose ssid/id cannot be extracted. -/
def BBoxApiResponse.merge (self other : BBoxApiResponse) : BBoxApiResponse :=
  let device :=
    match other.device with
    | some od =>
      match self.device with
      | some d => some (extendKV d od)
      | none => some od
    | none => self.device
  let wan :=
    match other.wan with
    | some ow =>
      match self.wan with
      | some w => some (extendKV w ow)
      | none => some ow
    | none => self.wan
  let lan :=
    match other.lan with
    | some ol =>
      match self.lan with
      | some l => some (extendKV l ol)
      | none => some ol
    | none => self.lan
  let wireless :=
    match other.wireless with
    | some ow =>
      match ssidIdOf ow with
      | some (key, ssid) =>
        match self.wireless with
        | some w => some (insertKV w key (.obj ssid))
        | none => some [(key, JVal.obj ssid)]
      | none => self.wireless
    | none => self.wireless
  ⟨device, wan, lan, wireless⟩

/-- `BBoxApiResponse::take`: hand out every category, leaving the source
snapshot empty (`Option::take` on each field). -/
def BBoxApiResponse.take (self : BBoxApiResponse) : BBoxApiResponse × BBoxApiResponse :=
  (self, BBoxApiResponse.empty)

/-- The mutable fields of `FetcherBBoxAdaptor` together with the value held
by its `meter_bbox` watch channel. -/
structure BBoxState where
  bboxId : Option RStr
  state : BBoxFetchState
  stats : BBoxApiResponse
  meter : BBoxApiResponse
  deriving Repr

/-- The body of a data response as seen after transport and `serde_json`:
`readErr` models a failed `collect()`, `unparsable` a `serde_json` error,
`frags` the successfully parsed `Vec<BBoxApiResponse>`. -/
inductive BBoxBody where
  | readErr
  | unparsable
  | frags (l : List BBoxApiResponse)
  deriving Repr

/-- An HTTP response delivered to `FetcherBBoxAdaptor::process_http_response`:
status code, the `Set-Cookie` header values and the body. -/
structure BBoxHttpResp where
  status : Nat
  setCookies : List RStr
  body : BBoxBody
  deriving Repr

/-- Input to one `process_http_response` call: either a response or one of
the transport-error constructors of `FetcherError`. -/
inductive BBoxInput where
  | response (r : BBoxHttpResp)
  | hyperCanceled
  | hyperErr
  | otherErr
  deriving Repr

/-- The `BBOX_ID` cookie scan of the login branch: for every `Set-Cookie`
value that strips the `BBOX_ID=` head, keep the part before the first `;`
(later cookies overwrite earlier ones). -/
def extractBBoxId (cookies : List RStr) : Option RStr :=
  cookies.foldl
    (fun acc c =>
      match rStripPrefix c (strOf "BBOX_ID=") with
      | some rest => some (((splitOnChar ';' rest).headD rest))
      | none => acc)
    none

/-- The request built by `FetcherBBoxAdaptor::create_http_request`: a login
POST carrying the password form body, or a data GET carrying the session
cookie. -/
inductive BBoxReq where
  | login (body : RStr)
  | data (method uri : String) (cookie : RStr)
  deriving Repr

/-- `FetcherBBoxAdaptor::create_http_request` (src/bbox.rs lines 687-725);
`pw` is `settings.password()` decoded as UTF-8. -/
def bboxCreateRequest (pw : Option RStr) (a : BBoxState) : Except String BBoxReq :=
  match a.bboxId with
  | none =>
    match pw with
    | some p => .ok (.login (strOf "password=" ++ p))
    | none => .error "Can't get password for remote API call"
  | some id =>
    match a.state.call with
    | some (m, u) => .ok (.data m u (strOf "BBOX_ID=" ++ id))
    | none => .error "Can't get URI for remote API call"

/-- `FetcherBBoxAdaptor::fetch`: reset the step tag to the first step (the
accumulated `stats` snapshot is not touched). -/
def bboxFetch (a : BBoxState) : BBoxState :=
  { a with state := default }

/-- `FetcherBBoxAdaptor::process_http_response` (src/bbox.rs lines 727-814).
Returns the new adaptor state, the `FetchAction`/error outcome, and the list
of values published on the `meter_bbox` watch channel during the call. -/
def bboxStep (a : BBoxState) : BBoxInput → BBoxState × FetchOut × List BBoxApiResponse
  | .hyperCanceled => (a, .stop, [])
  | .hyperErr => (a, .err, [])
  | .otherErr => (a, .err, [])
  | .response r =>
    match a.bboxId with
    | none =>
      if r.status = 200 then
        match extractBBoxId r.setCookies with
        | some id => ({ a with bboxId := some id }, .http, [])
        | none => (a, .err, [])
      else (a, .err, [])
    | some _ =>
      if r.status = 200 then
        match r.body with
        | .readErr => (a, .err, [])
        | .unparsable => (a, .err, [])
        | .frags l =>
          let stats := l.foldl BBoxApiResponse.merge a.stats
          let st := a.state.nextState
          if st ≠ .endState then
            ({ a with stats := stats, state := st }, .http, [])
          else
            let (snap, rest) := stats.take
            ({ a with stats := rest, state := st, meter := snap }, .stop, [snap])
      else if r.status = 401 then
        ({ a with bboxId := none }, .http, [])
      else (a, .err, [])

/-- Iterated `process_http_response`: feed responses while the adaptor keeps
asking for the next HTTP call; stop at the first `stop`/`err` outcome (an
exhausted input list leaves the cycle in-flight with outcome `http`).
Returns the final state, the final outcome and all published snapshots. -/
def runBBox (a : BBoxState) : List BBoxInput → BBoxState × FetchOut × List BBoxApiResponse
  | [] => (a, .http, [])
  | i :: rest =>
    match bboxStep a i with
    | (a₁, .http, p) =>
      match runBBox a₁ rest with
      | (a₂, o₂, p₂) => (a₂, o₂, p ++ p₂)
    | (a₁, o, p) => (a₁, o, p)

/-! ## Freebox adaptor (src/freebox.rs)

`FetcherFreeboxAdaptor`: challenge/HMAC login yielding a session token, then
Connection → System → SwitchStatus → SwitchPort(N) … SwitchPort(1) → End,
where `N` is the length of the switch-status `result` array truncated to
`u8`. Each step's parsed result is sent on its own watch channel
(`meter_conn`, `meter_system`, `meter_switch`, `meter_eth`) as soon as the
step succeeds. -/

/-- `FreeboxFetchState` (`SwitchPort` carries the `u8` port index as a `Nat`
that is always `< 256`; the Rust `End` variant is `endState`). -/
inductive FreeboxFetchState where
  | connection
  | system
  | switchStatus
  | switchPort (port : Nat)
  | endState
  deriving Repr, DecidableEq

/-- `FreeboxFetchState::default()` is `Connection`. -/
instance : Inhabited FreeboxFetchState := ⟨.connection⟩

/-- `FreeboxFetchState::next_state` (src/freebox.rs lines 57-72): the
dynamic tail descends `SwitchPort(p) → SwitchPort(p-1)` while `p > 1`,
and `SwitchStatus` always enters `SwitchPort(number_ports)`. -/
def FreeboxFetchState.nextState (s : FreeboxFetchState) (numberPorts : Nat) : FreeboxFetchState :=
  match s with
  | .connection => .system
  | .system => .switchStatus
  | .switchStatus => .switchPort numberPorts
  | .switchPort port => if 1 < port then .switchPort (port - 1) else .endState
  | .endState => .endState

/-- The sequence of states visited by iterating `next_state` with a fixed
learned count `n`, starting at (and including) `s`, until the terminal tag
(inclusive); `fuel` bounds the iteration. -/
def traceStates (n : Nat) : Nat → FreeboxFetchState → List FreeboxFetchState
  | 0, _ => []
  | _ + 1, .endState => [.endState]
  | fuel + 1, s => s :: traceStates n fuel (s.nextState n)

/-- The tags produced by iterating `next_state` from the count-discovery tag
`SwitchStatus` after the count `n` has been learned. -/
def traceFromSwitchStatus (n : Nat) : List FreeboxFetchState :=
  traceStates n (n + 2) (FreeboxFetchState.nextState .switchStatus n)

/-- The descending port tags `SwitchPort(n), …, SwitchPort(1)` the spec
promises for a discovered count `n`. -/
def portTags : Nat → List FreeboxFetchState
  | 0 => []
  | p + 1 => .switchPort (p + 1) :: portTags p

/-- `FreeboxApiResponse`: the profile-B JSON envelope, an explicit success
flag plus an optional result object. -/
structure FreeboxApiResponse where
  success : Bool
  result : Option Jmap
  deriving Repr

/-- `FreeboxApiResponse::default()`. -/
def FreeboxApiResponse.empty : FreeboxApiResponse := ⟨false, none⟩

instance : Inhabited FreeboxApiResponse := ⟨FreeboxApiResponse.empty⟩

/-- `serde_json` deserialization of `FreeboxApiResponse`: `success` is a
required boolean field, `result` an optional object (absent or `null` map to
`None`, any other non-object value is a type error). -/
def deserFreeboxApiResponse : JVal → Option FreeboxApiResponse
  | .obj o =>
    match jlookup o "success" with
    | some (.jbool b) =>
      match jlookup o "result" with
      | none => some ⟨b, none⟩
      | some .null => some ⟨b, none⟩
      | some (.obj m) => some ⟨b, some m⟩
      | some _ => none
    | _ => none
  | _ => none

/-- `FreeboxApiResponse::get_string`. -/
def FreeboxApiResponse.getString (r : FreeboxApiResponse) (key : String) : Option String :=
  r.result.bind (fun m => (jlookup m key).bind JVal.asStr)

/-- The mutable fields of `FetcherFreeboxAdaptor` together with the values
held by its four watch channels. -/
structure FbxState where
  challenge : Option String
  sessionToken : Option String
  state : FreeboxFetchState
  numberPorts : Nat
  meterConn : FreeboxApiResponse
  meterSystem : FreeboxApiResponse
  meterSwitch : List Jmap
  meterEth : List FreeboxApiResponse
  deriving Repr

/-- Body of a response as seen after transport and before `serde_json`:
`readErr` models a failed `collect()`, `unparsable` a byte stream that
`serde_json` rejects, `json` a successfully parsed `Value`. -/
inductive JsonBody where
  | readErr
  | unparsable
  | json (v : JVal)
  deriving Repr

/-- An HTTP response delivered to
`FetcherFreeboxAdaptor::process_http_response`. -/
structure FbxResponse where
  status : Nat
  body : JsonBody
  deriving Repr

/-- Input to one `process_http_response` call: a response or a transport
error. -/
inductive FbxInput where
  | response (r : FbxResponse)
  | hyperCanceled
  | hyperErr
  | otherErr
  deriving Repr

/-- One publish on one of the Freebox watch channels. -/
inductive FbxPub where
  | conn (r : FreeboxApiResponse)
  | system (r : FreeboxApiResponse)
  | switch (l : List Jmap)
  | eth (l : List FreeboxApiResponse)
  deriving Repr

/-- The `(port_id - 1) as usize` index computation of the `SwitchPort`
branch: `port_id - 1` in wrapping `u8` arithmetic. -/
def ethIndex (portId : Nat) : Nat := (portId + 255) % 256

/-- The per-port store update `eth[(port_id - 1) as usize] = api_resp` of
src/freebox.rs lines 656-669: clone the current `meter_eth` value, write at
the wrapped index (allocating `number_ports` default slots when the store is
still empty); `none` models the panic of an out-of-bounds write (or, in a
debug build, of the `u8` underflow itself when `port_id = 0`). -/
def ethStore (meterEth : List FreeboxApiResponse) (numberPorts portId : Nat)
    (resp : FreeboxApiResponse) : Option (List FreeboxApiResponse) :=
  let idx := ethIndex portId
  if meterEth.isEmpty then
    let eth := List.replicate numberPorts FreeboxApiResponse.empty
    if idx < eth.length then some (eth.set idx resp) else none
  else if idx < meterEth.length then some (meterEth.set idx resp)
  else none

/-- `FetcherFreeboxAdaptor::fetch`: reset the step tag to the first step. -/
def fbxFetch (a : FbxState) : FbxState :=
  { a with state := default }

/-- `FetcherFreeboxAdaptor::process_http_response` (src/freebox.rs lines
534-707). Returns `none` for a Rust panic (the `SwitchPort(0)` underflow),
otherwise the new state, the `FetchAction`/error outcome and the publishes
performed during the call. -/
def fbxStep (a : FbxState) : FbxInput → Option (FbxState × FetchOut × List FbxPub)
  | .hyperCanceled => some (a, .stop, [])
  | .hyperErr => some (a, .err, [])
  | .otherErr => some (a, .err, [])
  | .response r =>
    match a.challenge with
    | none =>
      if r.status = 200 then
        match r.body with
        | .readErr => some (a, .err, [])
        | .unparsable => some (a, .err, [])
        | .json v =>
          match deserFreeboxApiResponse v with
          | none => some (a, .err, [])
          | some login =>
            match login.getString "challenge" with
            | some c => some ({ a with challenge := some c }, .http, [])
            | none => some (a, .err, [])
      else some (a, .err, [])
    | some _ =>
      match a.sessionToken with
      | none =>
        if r.status = 200 then
          match r.body with
          | .readErr => some (a, .err, [])
          | .unparsable => some (a, .err, [])
          | .json v =>
            match deserFreeboxApiResponse v with
            | none => some (a, .err, [])
            | some login =>
              match login.getString "session_token" with
              | some t => some ({ a with sessionToken := some t }, .http, [])
              | none => some (a, .err, [])
        else some (a, .err, [])
      | some _ =>
        if r.status = 200 then
          match r.body with
          | .readErr => some (a, .err, [])
          | .unparsable => some (a, .err, [])
          | .json v =>
            if a.state = .switchStatus then
              match (v.get "result").bind JVal.asArr with
              | some arr =>
                let n := arr.length % 256
                let sw := arr.map (fun x => (x.asObj).getD [])
                some ({ a with numberPorts := n, meterSwitch := sw,
                                state := FreeboxFetchState.nextState .switchStatus n },
                      .http, [.switch sw])
              | none => some (a, .stop, [])
            else
              match deserFreeboxApiResponse v with
              | none => some (a, .err, [])
              | some resp =>
                if resp.success then
                  let advance := fun (a' : FbxState) (pubs : List FbxPub) =>
                    let st := a.state.nextState a.numberPorts
                    if st ≠ .endState then some ({ a' with state := st }, FetchOut.http, pubs)
                    else some ({ a' with state := st }, FetchOut.stop, pubs)
                  match a.state with
                  | .connection => advance { a with meterConn := resp } [.conn resp]
                  | .system => advance { a with meterSystem := resp } [.system resp]
                  | .switchPort portId =>
                    match ethStore a.meterEth a.numberPorts portId resp with
                    | some eth => advance { a with meterEth := eth } [.eth eth]
                    | none => none
                  | _ => advance a []
                else some (a, .stop, [])
        else some (a, .err, [])

/-- Iterated `process_http_response` for the Freebox adaptor (cf.
`runBBox`); `none` propagates a panic. -/
def runFbx (a : FbxState) : List FbxInput → Option (FbxState × FetchOut × List FbxPub)
  | [] => some (a, .http, [])
  | i :: rest =>
    match fbxStep a i with
    | none => none
    | some (a₁, .http, p) =>
      match runFbx a₁ rest with
      | none => none
      | some (a₂, o₂, p₂) => some (a₂, o₂, p ++ p₂)
    | some (a₁, o, p) => some (a₁, o, p)

/-! ## Deye solar adaptor (src/deye_solar.rs)

`FetcherDeyeSolarAdaptor`: a single `GET /status.html` per cycle; the body is
an HTML document scanned line by line for `var <name> = "<value>";`
assignments. The parsed record is sent on the `meter_solar` watch channel. -/

/-- `DeyeSolarData` (`u64`/`u8` as range-limited `Nat`, `f64` as `ℚ`,
strings as `RStr`). -/
structure DeyeSolarData where
  serialNumber : RStr
  currentPower : Nat
  yieldToday : ℚ
  totalYield : ℚ
  wirelessRouterSsid : RStr
  wirelessSignalQuality : Nat
  deriving Repr

/-- `DeyeSolarData::default()`. -/
def DeyeSolarData.empty : DeyeSolarData := ⟨[], 0, 0, 0, [], 0⟩

instance : Inhabited DeyeSolarData := ⟨DeyeSolarData.empty⟩

/-- The six accumulators of the scanning loop in
`TryFrom<String> for DeyeSolarData`. -/
structure DeyeAcc where
  serial : Option RStr
  power : Option Nat
  today : Option ℚ
  total : Option ℚ
  ssid : Option RStr
  signal : Option Nat

/-- The initial accumulator: nothing seen yet. -/
def DeyeAcc.init : DeyeAcc := ⟨none, none, none, none, none, none⟩

/-- One iteration of the scanning loop (src/deye_solar.rs lines 37-61): an
`if let`/`else if let` chain over the recognized assignment heads. Numeric
values use `unwrap_or_default()`, so an unparsable number becomes `0` rather
than an error; a recognized head whose `";` terminator is missing resets the
field to `None`. -/
def deyeLineStep (acc : DeyeAcc) (line : RStr) : DeyeAcc :=
  if rStartsWith line (strOf "var ") then
    match rStripPrefix line (strOf "var webdata_sn = \"") with
    | some sn => { acc with serial := (rStripSuffix sn (strOf "\";")).map rTrimEnd }
    | none =>
      match rStripPrefix line (strOf "var webdata_now_p = \"") with
      | some nowP =>
        { acc with power := (rStripSuffix nowP (strOf "\";")).map (fun p => (rustParseU64 p).getD 0) }
      | none =>
        match rStripPrefix line (strOf "var webdata_today_e = \"") with
        | some todayE =>
          { acc with today := (rStripSuffix todayE (strOf "\";")).map (fun p => (rustParseF64 p).getD 0) }
        | none =>
          match rStripPrefix line (strOf "var webdata_total_e = \"") with
          | some totalE =>
            { acc with total := (rStripSuffix totalE (strOf "\";")).map (fun p => (rustParseF64 p).getD 0) }
          | none =>
            match rStripPrefix line (strOf "var cover_sta_ssid = \"") with
            | some staSsid => { acc with ssid := rStripSuffix staSsid (strOf "\";") }
            | none =>
              match rStripPrefix line (strOf "var cover_sta_rssi = \"") with
              | some staRssi =>
                { acc with signal := (rStripSuffix staRssi (strOf "%\";")).map (fun p => (rustParseU8 p).getD 0) }
              | none => acc
  else acc

/-- `TryFrom<String> for DeyeSolarData` (src/deye_solar.rs lines 27-77):
scan all lines, then demand every field, failing with the field-specific
missing-field message of the first absent field (in struct order, the serial
number first). -/
def DeyeSolarData.tryFrom (data : RStr) : Except String DeyeSolarData :=
  let acc := (rustLines data).foldl deyeLineStep DeyeAcc.init
  match acc.serial with
  | none => .error "Missing serial number [webdata_sn]"
  | some sn =>
    match acc.power with
    | none => .error "Missing current power [webdata_now_p]"
    | some p =>
      match acc.today with
      | none => .error "Missing yield power today [webdata_today_e]"
      | some ty =>
        match acc.total with
        | none => .error "Missing total yield power [webdata_total_e]"
        | some tt =>
          match acc.ssid with
          | none => .error "Missing wireless SSID [cover_sta_ssid]"
          | some ss =>
            match acc.signal with
            | none => .error "Missing wireless signal quality [cover_sta_rssi]"
            | some sq => .ok ⟨sn, p, ty, tt, ss, sq⟩

/-- The adaptor state: the value held by the `meter_solar` watch channel. -/
structure DeyeState where
  meter : DeyeSolarData
  deriving Repr

/-- A response delivered to
`FetcherDeyeSolarAdaptor::process_http_response`: the status, whether a
`WWW-Authenticate` header is present, and the accumulated body text
(`Except.error` models a frame read error or invalid UTF-8; the streamed
accumulation that stops early at the `var status_c = ` sentinel is abstracted
into the resulting string). -/
structure DeyeResp where
  status : Nat
  wwwAuthenticate : Bool
  body : Except Unit RStr

/-- `FetcherDeyeSolarAdaptor::process_http_response` (src/deye_solar.rs
lines 198-250). Returns the new state, the outcome and the publishes. -/
def deyeStep (a : DeyeState) (r : DeyeResp) : DeyeState × FetchOut × List DeyeSolarData :=
  if r.status = 200 then
    match r.body with
    | .error _ => (a, .err, [])
    | .ok data =>
      match DeyeSolarData.tryFrom data with
      | .error _ => (a, .err, [])
      | .ok d => (⟨d⟩, .stop, [d])
  else if r.status = 401 then
    if r.wwwAuthenticate then (a, .http, []) else (a, .err, [])
  else (a, .err, [])

/-- Iterated `process_http_response` for the Deye adaptor (the 401 branch
with a `WWW-Authenticate` header retries, so one cycle can span several
responses). -/
def runDeye (a : DeyeState) : List DeyeResp → DeyeState × FetchOut × List DeyeSolarData
  | [] => (a, .http, [])
  | r :: rest =>
    match deyeStep a r with
    | (a₁, .http, p) =>
      match runDeye a₁ rest with
      | (a₂, o₂, p₂) => (a₂, o₂, p ++ p₂)
    | (a₁, o, p) => (a₁, o, p)

/-! ## Concrete example values used by witnesses and counterexamples -/

/-- An authenticated BBox adaptor state sitting at the Wan tag, used by the
C3 witness. -/
def bboxWanStateEx : BBoxState :=
  ⟨some (strOf "sid"), .wan, BBoxApiResponse.empty, BBoxApiResponse.empty⟩

/-- A stale snapshot fragment left over by an aborted cycle, used for C5. -/
def staleStatsEx : BBoxApiResponse := ⟨some [("k", .num 7)], none, none, none⟩

/-- A BBox adaptor state holding that stale fragment, used for C5. -/
def bboxStateEx : BBoxState :=
  ⟨some (strOf "sid"), .endState, staleStatsEx, BBoxApiResponse.empty⟩

/-- An authenticated Freebox adaptor state at the Connection tag, used by
the C1 and C7 counterexamples. -/
def fbxAuthedEx : FbxState :=
  ⟨some "c", some "t", .connection, 0,
   FreeboxApiResponse.empty, FreeboxApiResponse.empty, [], []⟩

/-- A profile-B envelope with a false success flag. -/
def successFalseBody : JVal := .obj [("success", .jbool false)]

/-- The spec's end-to-end scenario document, with the assignment heads the
parser actually recognizes for the sn/now_p/today_e/total_e/ssid/rssi
fields. -/
def goodDoc : RStr := strOf
  "var webdata_sn = \"X1\";\nvar webdata_now_p = \"120\";\nvar webdata_today_e = \"3.4\";\nvar webdata_total_e = \"500.1\";\nvar cover_sta_ssid = \"home\";\nvar cover_sta_rssi = \"80%\";"

/-- The scenario document with the now_p value replaced by the non-numeric
`abc`, used for C4. -/
def badNumDoc : RStr := strOf
  "var webdata_sn = \"X1\";\nvar webdata_now_p = \"abc\";\nvar webdata_today_e = \"3.4\";\nvar webdata_total_e = \"500.1\";\nvar cover_sta_ssid = \"home\";\nvar cover_sta_rssi = \"80%\";"

/-- A profile-B envelope with a true success flag and no result payload. -/
def successTrueBody : JVal := .obj [("success", .jbool true)]

/-- A BBox adaptor state one data step before the terminal tag, used by the
C1 witness. -/
def bboxLastStepEx : BBoxState :=
  ⟨some (strOf "sid"), .wifi true, staleStatsEx, BBoxApiResponse.empty⟩

/-- A wireless snapshot holding one band, used by the C9 witness. -/
def wirelessSnapEx : BBoxApiResponse := ⟨none, none, none, some [("24", JVal.obj [])]⟩

/-- A fragment whose wireless part lacks the ssid `id`, used by the C9
witness. -/
def wirelessFragEx : BBoxApiResponse :=
  ⟨some [("d", .num 1)], none, none, some [("ssid", .str "oops")]⟩

/-! ## Map lemmas: the union-overwrite semantics of `HashMap::extend` -/

theorem jlookup_insertKV_self (m : Jmap) (k : String) (v : JVal) :
    jlookup (insertKV m k v) k = some v := by
  induction m with
  | nil => simp [insertKV, jlookup]
  | cons kv rest ih =>
    obtain ⟨k', v'⟩ := kv
    by_cases h : k' = k
    · simp [insertKV, h, jlookup]
    · simp [insertKV, h, jlookup, ih]

theorem jlookup_insertKV_ne (m : Jmap) (k k' : String) (v : JVal) (h : k' ≠ k) :
    jlookup (insertKV m k v) k' = jlookup m k' := by
  induction m with
  | nil => simp [insertKV, jlookup, if_neg (Ne.symm h)]
  | cons kv rest ih =>
    obtain ⟨k₀, v₀⟩ := kv
    by_cases h₀ : k₀ = k
    · subst h₀
      simp [insertKV, jlookup, if_neg (Ne.symm h)]
    · by_cases h₁ : k₀ = k'
      · simp [insertKV, h₀, jlookup, h₁, h]
      · simp [insertKV, h₀, jlookup, h₁, ih]

theorem jlookup_eq_none (m : Jmap) (k : String) (h : k ∉ m.map Prod.fst) :
    jlookup m k = none := by
  induction m with
  | nil => rfl
  | cons kv rest ih =>
    obtain ⟨k₀, v₀⟩ := kv
    simp only [List.map_cons, List.mem_cons] at h
    push_neg at h
    simp [jlookup, Ne.symm h.1, ih h.2]

theorem extendKV_cons (m : Jmap) (k : String) (v : JVal) (o : Jmap) :
    extendKV m ((k, v) :: o) = extendKV (insertKV m k v) o := rfl

theorem jlookup_extendKV (m o : Jmap) (k : String) (h : KeysNodup o) :
    jlookup (extendKV m o) k = (jlookup o k).or (jlookup m k) := by
  induction o generalizing m with
  | nil => simp [extendKV, jlookup]
  | cons kv o ih =>
    obtain ⟨k₀, v₀⟩ := kv
    have hn := (List.nodup_cons.mp h)
    rw [extendKV_cons, ih _ hn.2]
    by_cases hk : k₀ = k
    · subst hk
      rw [jlookup_eq_none o k₀ hn.1]
      simp [jlookup, jlookup_insertKV_self]
    · simp [jlookup, hk, jlookup_insertKV_ne _ _ _ _ (Ne.symm hk)]

theorem merge_device (s o : BBoxApiResponse) :
    (s.merge o).device = mergeCat s.device o.device := by
  cases ho : o.device <;> cases hs : s.device <;>
    simp [BBoxApiResponse.merge, mergeCat, ho, hs]

theorem merge_wan (s o : BBoxApiResponse) :
    (s.merge o).wan = mergeCat s.wan o.wan := by
  cases ho : o.wan <;> cases hs : s.wan <;>
    simp [BBoxApiResponse.merge, mergeCat, ho, hs]

theorem merge_lan (s o : BBoxApiResponse) :
    (s.merge o).lan = mergeCat s.lan o.lan := by
  cases ho : o.lan <;> cases hs : s.lan <;>
    simp [BBoxApiResponse.merge, mergeCat, ho, hs]

/-- C8: merging a fragment under the union-overwrite policy (the
`device`/`wan`/`lan` categories of `BBoxApiResponse::merge`) adds the
incoming key/value pairs to the category's mapping, replacing the values of
keys already present and leaving absent keys untouched; in particular
merging `{a:1,b:2}` then `{b:3,c:4}` into an empty category yields exactly
`{a:1,b:3,c:4}`. -/
theorem bbox_union_overwrite_merge :
    (∀ m o k, KeysNodup o →
      jlookup (extendKV m o) k = (jlookup o k).or (jlookup m k))
    ∧ (∀ s o : BBoxApiResponse,
        (s.merge o).device = mergeCat s.device o.device
        ∧ (s.merge o).wan = mergeCat s.wan o.wan
        ∧ (s.merge o).lan = mergeCat s.lan o.lan)
    ∧ ((BBoxApiResponse.empty.merge
          ⟨some [("a", .num 1), ("b", .num 2)], none, none, none⟩).merge
            ⟨some [("b", .num 3), ("c", .num 4)], none, none, none⟩).device
        = some [("a", .num 1), ("b", .num 3), ("c", .num 4)] :=
  ⟨fun m o k h => jlookup_extendKV m o k h,
   fun s o => ⟨merge_device s o, merge_wan s o, merge_lan s o⟩,
   rfl⟩

/-- C8 witness: the lookup characterization applied to concrete maps with a
replaced key and an untouched key. -/
theorem bbox_union_overwrite_merge_witness :
    KeysNodup [("b", JVal.num 3)]
    ∧ jlookup (extendKV [("a", JVal.num 1), ("b", JVal.num 2)] [("b", JVal.num 3)]) "b"
        = (jlookup [("b", JVal.num 3)] "b").or
            (jlookup [("a", JVal.num 1), ("b", JVal.num 2)] "b")
    ∧ jlookup (extendKV [("a", JVal.num 1), ("b", JVal.num 2)] [("b", JVal.num 3)]) "a"
        = (jlookup [("b", JVal.num 3)] "a").or
            (jlookup [("a", JVal.num 1), ("b", JVal.num 2)] "a") :=
  ⟨by decide,
   bbox_union_overwrite_merge.1 _ _ "b" (by decide),
   bbox_union_overwrite_merge.1 _ _ "a" (by decide)⟩

/-- C9: a fragment whose wireless part lacks the ssid identifier is silently
dropped for the wireless category — the snapshot's wireless mapping is left
unchanged and no error is reported (`merge` cannot fail) — while the
fragment's other categories are still merged normally. -/
theorem bbox_wireless_missing_id_dropped (s o : BBoxApiResponse) (w : Jmap)
    (ho : o.wireless = some w) (hid : ssidIdOf w = none) :
    (s.merge o).wireless = s.wireless
    ∧ (s.merge o).device = mergeCat s.device o.device
    ∧ (s.merge o).wan = mergeCat s.wan o.wan
    ∧ (s.merge o).lan = mergeCat s.lan o.lan := by
  refine ⟨?_, merge_device s o, merge_wan s o, merge_lan s o⟩
  simp [BBoxApiResponse.merge, ho, hid]

/-! ## Freebox dynamic-tail chain and per-port store -/

theorem traceStates_switchPort (n : Nat) :
    ∀ p fuel, 1 ≤ p → p + 1 ≤ fuel →
      traceStates n fuel (.switchPort p) = portTags p ++ [.endState] := by
  intro p
  induction p with
  | zero => intro fuel h _; omega
  | succ q ih =>
    intro fuel h1 h2
    obtain ⟨f, rfl⟩ : ∃ f, fuel = f + 1 := ⟨fuel - 1, by omega⟩
    by_cases hq : q = 0
    · subst hq
      obtain ⟨f', rfl⟩ : ∃ f', f = f' + 1 := ⟨f - 1, by omega⟩
      simp [traceStates, FreeboxFetchState.nextState, portTags]
    · rw [show traceStates n (f + 1) (.switchPort (q + 1))
            = .switchPort (q + 1) :: traceStates n f
                (FreeboxFetchState.nextState (.switchPort (q + 1)) n) from rfl]
      rw [show FreeboxFetchState.nextState (.switchPort (q + 1)) n = .switchPort q from by
        simp only [FreeboxFetchState.nextState]
        rw [if_pos (by omega : 1 < q + 1)]
        simp]
      rw [ih f (by omega) (by omega)]
      simp [portTags]

/-- C2: evaluation of the dynamic-tail chain. For a discovered count `N ≥ 1`
iterating `FreeboxFetchState::next_state` from `SwitchStatus` produces
exactly `SwitchPort(N), …, SwitchPort(1), End` as the claim states — but for
`N = 0` the code transitions `SwitchStatus → SwitchPort(0)` and only then to
`End`, instead of the immediate termination the claim (and spec) require. -/
theorem freebox_chain_eval :
    FreeboxFetchState.nextState .switchStatus 0 = .switchPort 0
    ∧ traceFromSwitchStatus 0 = [.switchPort 0, .endState]
    ∧ (∀ n, 1 ≤ n → n ≤ 255 → traceFromSwitchStatus n = portTags n ++ [.endState]) := by
  refine ⟨rfl, rfl, ?_⟩
  intro n h1 _
  unfold traceFromSwitchStatus
  rw [show FreeboxFetchState.nextState .switchStatus n = .switchPort n from rfl]
  exact traceStates_switchPort n n (n + 2) h1 (by omega)

/-- C2 witness: the positive part of the chain evaluation at `N = 3`. -/
theorem freebox_chain_eval_witness :
    traceFromSwitchStatus 3 = portTags 3 ++ [.endState] :=
  freebox_chain_eval.2.2 3 (by decide) (by decide)

/-- C10: the per-port store update of the `SwitchPort(p)` branch writes at
index `p - 1` computed in wrapping `u8` arithmetic; under the precondition
`1 ≤ p ≤ number_ports` (with the store empty or sized to `number_ports`) the
write is in bounds, so the unsafe branch is unreachable there; but the
sequencer reaches `SwitchPort(0)` when the discovered count is `0`, and at
`p = 0` the subtraction underflows to index `255` and the update panics. -/
theorem freebox_port_index_safety :
    (∀ p n (eth : List FreeboxApiResponse) (r : FreeboxApiResponse),
        1 ≤ p → p ≤ n → n ≤ 255 → (eth = [] ∨ eth.length = n) →
        ethIndex p = p - 1 ∧ (ethStore eth n p r).isSome)
    ∧ FreeboxFetchState.nextState .switchStatus 0 = .switchPort 0
    ∧ ethIndex 0 = 255
    ∧ (∀ n (eth : List FreeboxApiResponse) (r : FreeboxApiResponse),
        n ≤ 255 → eth.length ≤ 255 → ethStore eth n 0 r = none) := by
  refine ⟨?_, rfl, rfl, ?_⟩
  · intro p n eth r h1 h2 h3 h4
    have hidx : ethIndex p = p - 1 := by unfold ethIndex; omega
    refine ⟨hidx, ?_⟩
    unfold ethStore
    rcases h4 with h | h
    · subst h
      simp only [List.isEmpty_nil, if_true, List.length_replicate, hidx]
      rw [if_pos (by omega : p - 1 < n)]
      simp
    · have hne : eth.isEmpty = false := by
        cases eth with
        | nil => simp at h; omega
        | cons x xs => rfl
      simp only [hne, Bool.false_eq_true, if_false, hidx, h]
      rw [if_pos (by omega : p - 1 < n)]
      simp
  · intro n eth r h1 h2
    unfold ethStore
    have hidx : ethIndex 0 = 255 := rfl
    cases heth : eth.isEmpty with
    | true =>
      simp only [heth, if_true, List.length_replicate, hidx]
      rw [if_neg (by omega : ¬255 < n)]
    | false =>
      simp only [heth, Bool.false_eq_true, if_false, hidx]
      rw [if_neg (by omega : ¬255 < eth.length)]

/-- C10 witness: the in-bounds case at `p = 1`, `number_ports = 1`, and the
panicking underflow case at `p = 0`. -/
theorem freebox_port_index_safety_witness :
    (ethIndex 1 = 0 ∧ (ethStore [] 1 1 FreeboxApiResponse.empty).isSome)
    ∧ ethStore [] 0 0 FreeboxApiResponse.empty = none :=
  ⟨freebox_port_index_safety.1 1 1 [] FreeboxApiResponse.empty (by decide) (by decide)
      (by decide) (Or.inl rfl),
   freebox_port_index_safety.2.2.2 0 [] FreeboxApiResponse.empty (by decide) (by decide)⟩

/-! ## BBox session invalidation and cycle start -/

/-- C3: receiving 401 UNAUTHORIZED on a data call clears the session
credential (`bbox_id`) and leaves the step-sequencer position unchanged;
after the re-login response restores a credential the position is still the
same tag `T`, and the next built request is the data request for `T`. -/
theorem bbox_unauthorized_keeps_position (a : BBoxState) (idTok : RStr) (m u : String)
    (hid : a.bboxId = some idTok) (hcall : a.state.call = some (m, u))
    (r401 : BBoxHttpResp) (h401 : r401.status = 401)
    (rLogin : BBoxHttpResp) (hLok : rLogin.status = 200)
    (idNew : RStr) (hcookie : extractBBoxId rLogin.setCookies = some idNew)
    (pw : Option RStr) :
    bboxStep a (.response r401) = ({ a with bboxId := none }, .http, [])
    ∧ bboxStep { a with bboxId := none } (.response rLogin)
        = ({ a with bboxId := some idNew }, .http, [])
    ∧ bboxCreateRequest pw { a with bboxId := some idNew }
        = .ok (.data m u (strOf "BBOX_ID=" ++ idNew)) := by
  refine ⟨?_, ?_, ?_⟩
  · simp [bboxStep, hid, h401]
  · simp [bboxStep, hLok, hcookie]
  · simp [bboxCreateRequest, hcall]

/-- C3 witness: the 401-then-relogin sequence at the Wan tag rebuilds the
Wan request. -/
theorem bbox_unauthorized_keeps_position_witness :
    bboxStep bboxWanStateEx (.response ⟨401, [], .readErr⟩)
      = ({ bboxWanStateEx with bboxId := none }, .http, [])
    ∧ bboxStep { bboxWanStateEx with bboxId := none }
        (.response ⟨200, [strOf "BBOX_ID=newid; Path=/"], .readErr⟩)
        = ({ bboxWanStateEx with bboxId := some (strOf "newid") }, .http, [])
    ∧ bboxCreateRequest (some (strOf "pw")) { bboxWanStateEx with bboxId := some (strOf "newid") }
        = .ok (.data "GET" "/api/v1/wan/ip/stats" (strOf "BBOX_ID=" ++ strOf "newid")) :=
  bbox_unauthorized_keeps_position bboxWanStateEx (strOf "sid") "GET" "/api/v1/wan/ip/stats"
    rfl rfl ⟨401, [], .readErr⟩ rfl ⟨200, [strOf "BBOX_ID=newid; Path=/"], .readErr⟩ rfl
    (strOf "newid") (by decide) (some (strOf "pw"))

/-- C5 counterexample: `fetch` does not reset the accumulated snapshot to
empty — on a state holding a stale fragment it leaves `stats` untouched. -/
theorem bbox_fetch_keeps_stats :
    (bboxFetch bboxStateEx).stats = staleStatsEx
    ∧ staleStatsEx ≠ BBoxApiResponse.empty := by
  refine ⟨rfl, ?_⟩
  intro h
  simpa [staleStatsEx, BBoxApiResponse.empty] using congrArg BBoxApiResponse.device h

/-- C5 amended: `fetch` resets only the step tag to the first step; the
accumulated snapshot (as well as the session cookie and the published value)
is left untouched — it is emptied only by `take()` at publish — so a
fragment merged by a previous aborted cycle is still present in the snapshot
the next cycle publishes, as the concrete run shows. -/
theorem bbox_fetch_resets_tag_only :
    (∀ a : BBoxState, bboxFetch a = { a with state := .cpu })
    ∧ (runBBox (bboxFetch bboxStateEx)
        (List.replicate 6 (.response ⟨200, [], .frags []⟩))).2.2 = [staleStatsEx] :=
  ⟨fun _ => rfl, rfl⟩

/-! ## Freebox data-level failure handling -/

/-- C7 counterexample: a `success:false` envelope on a data call makes
`process_http_response` return `Ok(FetchAction::None)` — the cycle ends as a
quiet soft stop, not as the error surfaced to the scheduler that the claim
requires. -/
theorem freebox_success_false_quiet_stop :
    fbxStep fbxAuthedEx (.response ⟨200, .json successFalseBody⟩)
      = some (fbxAuthedEx, .stop, [])
    ∧ FetchOut.stop ≠ FetchOut.err :=
  ⟨rfl, by decide⟩

/-- C7 amended: a profile-B envelope with a false success flag on a data
call aborts the cycle without any publish for that step and without being
treated as a transport failure, but it ends the cycle quietly
(`Ok(FetchAction::None)` after a warning log) with the state unchanged; it
is not surfaced to the scheduler as a cycle failure. -/
theorem freebox_success_false_aborts_quietly (a : FbxState) (v : JVal)
    (resp : FreeboxApiResponse) (c t : String)
    (hc : a.challenge = some c) (ht : a.sessionToken = some t)
    (hs : a.state ≠ .switchStatus)
    (hd : deserFreeboxApiResponse v = some resp) (hf : resp.success = false) :
    fbxStep a (.response ⟨200, .json v⟩) = some (a, .stop, []) := by
  simp [fbxStep, hc, ht, hs, hd, hf]

/-- C7 witness: the quiet-stop behaviour at the concrete authenticated
state. -/
theorem freebox_success_false_aborts_quietly_witness :
    fbxStep fbxAuthedEx (.response ⟨200, .json successFalseBody⟩)
      = some (fbxAuthedEx, .stop, []) :=
  freebox_success_false_aborts_quietly fbxAuthedEx successFalseBody
    ⟨false, none⟩ "c" "t" rfl rfl (by decide) rfl rfl

/-! ## Deye scrape parser: scenario evaluation and missing-field errors -/

theorem deyeLineStep_serial (acc : DeyeAcc) (l : RStr)
    (h : rStartsWith l (strOf "var webdata_sn = \"") = false) :
    (deyeLineStep acc l).serial = acc.serial := by
  have hsn : rStripPrefix l (strOf "var webdata_sn = \"") = none := by
    unfold rStripPrefix
    rw [h]
    rfl
  unfold deyeLineStep
  simp only [hsn]
  split
  · split
    · rfl
    · split
      · rfl
      · split
        · rfl
        · split
          · rfl
          · split
            · rfl
            · rfl
  · rfl

theorem deyeLineStep_power (acc : DeyeAcc) (l : RStr)
    (h : rStartsWith l (strOf "var webdata_now_p = \"") = false) :
    (deyeLineStep acc l).power = acc.power := by
  have hnp : rStripPrefix l (strOf "var webdata_now_p = \"") = none := by
    unfold rStripPrefix
    rw [h]
    rfl
  unfold deyeLineStep
  simp only [hnp]
  split
  · split
    · rfl
    · split
      · rfl
      · split
        · rfl
        · split
          · rfl
          · split
            · rfl
            · rfl
  · rfl

theorem foldl_deyeLineStep_serial (ls : List RStr) (acc : DeyeAcc)
    (h : ∀ l ∈ ls, rStartsWith l (strOf "var webdata_sn = \"") = false) :
    (ls.foldl deyeLineStep acc).serial = acc.serial := by
  induction ls generalizing acc with
  | nil => rfl
  | cons l ls ih =>
    rw [List.foldl_cons, ih _ (fun x hx => h x (List.mem_cons_of_mem _ hx)),
        deyeLineStep_serial acc l (h l (List.mem_cons_self _ _))]

theorem foldl_deyeLineStep_power (ls : List RStr) (acc : DeyeAcc)
    (h : ∀ l ∈ ls, rStartsWith l (strOf "var webdata_now_p = \"") = false) :
    (ls.foldl deyeLineStep acc).power = acc.power := by
  induction ls generalizing acc with
  | nil => rfl
  | cons l ls ih =>
    rw [List.foldl_cons, ih _ (fun x hx => h x (List.mem_cons_of_mem _ hx)),
        deyeLineStep_power acc l (h l (List.mem_cons_self _ _))]

theorem rustParseF64_34 : (rustParseF64 (strOf "3.4")).getD 0 = (17 / 5 : ℚ) := by
  norm_num [rustParseF64,
    show parseDecParts (strOf "3.4") = some (false, 3, 4, 1) from by decide]

theorem rustParseF64_5001 : (rustParseF64 (strOf "500.1")).getD 0 = (5001 / 10 : ℚ) := by
  norm_num [rustParseF64,
    show parseDecParts (strOf "500.1") = some (false, 500, 1, 1) from by decide]

/-- C6: the text-scrape parser on the scenario document (the six assignment
lines for sn, now_p, today_e, total_e, ssid and rssi with values `X1`,
`120`, `3.4`, `500.1`, `home` and `80%`) returns exactly the fragment
`{serial:"X1", power:120, today:3.4, total:500.1, ssid:"home", signal:80}`;
and every document without an sn assignment fails with the field-specific
missing-field error naming the sn assignment (`webdata_sn`). -/
theorem deye_scrape_scenario :
    DeyeSolarData.tryFrom goodDoc
      = .ok ⟨strOf "X1", 120, (17 / 5 : ℚ), (5001 / 10 : ℚ), strOf "home", 80⟩
    ∧ (∀ doc : RStr,
        (∀ l ∈ rustLines doc, rStartsWith l (strOf "var webdata_sn = \"") = false) →
        DeyeSolarData.tryFrom doc = .error "Missing serial number [webdata_sn]") := by
  constructor
  · rw [show (17 / 5 : ℚ) = (rustParseF64 (strOf "3.4")).getD 0 from rustParseF64_34.symm,
        show (5001 / 10 : ℚ) = (rustParseF64 (strOf "500.1")).getD 0 from rustParseF64_5001.symm]
    rfl
  · intro doc h
    have hser : ((rustLines doc).foldl deyeLineStep DeyeAcc.init).serial = none :=
      foldl_deyeLineStep_serial _ _ h
    simp only [DeyeSolarData.tryFrom]
    rw [hser]

/-- C6 witness: the empty document has no sn assignment and fails with the
sn-specific error. -/
theorem deye_scrape_scenario_witness :
    DeyeSolarData.tryFrom (strOf "") = .error "Missing serial number [webdata_sn]" :=
  deye_scrape_scenario.2 (strOf "") (by decide)

/-- C4 counterexample: the recognized now_p assignment with the non-numeric
value `abc` does not produce an error — the document parses successfully,
with `current_power` silently defaulted to 0 (`unwrap_or_default`). -/
theorem deye_bad_number_parses_ok :
    DeyeSolarData.tryFrom badNumDoc
      = .ok ⟨strOf "X1", 0, (17 / 5 : ℚ), (5001 / 10 : ℚ), strOf "home", 80⟩ := by
  rw [show (17 / 5 : ℚ) = (rustParseF64 (strOf "3.4")).getD 0 from rustParseF64_34.symm,
      show (5001 / 10 : ℚ) = (rustParseF64 (strOf "500.1")).getD 0 from rustParseF64_5001.symm]
  rfl

/-- C4 amended: a malformed body is a hard error that aborts the whole
cycle with nothing merged (BBox: a `serde_json` failure returns the error
with the state, snapshot and publisher untouched), and a required assignment
absent from the document is a hard error (Deye); but a recognized assignment
whose value fails to parse as a number is not an error — the field silently
defaults to 0. -/
theorem parse_failure_aborts_amended :
    (∀ (a : BBoxState) (r : BBoxHttpResp) (idTok : RStr),
        a.bboxId = some idTok → r.status = 200 → r.body = .unparsable →
        bboxStep a (.response r) = (a, .err, []))
    ∧ (∀ doc : RStr,
        (∀ l ∈ rustLines doc, rStartsWith l (strOf "var webdata_now_p = \"") = false) →
        ∃ e, DeyeSolarData.tryFrom doc = .error e)
    ∧ DeyeSolarData.tryFrom badNumDoc
        = .ok ⟨strOf "X1", 0, (17 / 5 : ℚ), (5001 / 10 : ℚ), strOf "home", 80⟩ := by
  refine ⟨?_, ?_, ?_⟩
  · intro a r idTok hid hst hb
    simp [bboxStep, hid, hst, hb]
  · intro doc h
    have hp : ((rustLines doc).foldl deyeLineStep DeyeAcc.init).power = none :=
      foldl_deyeLineStep_power _ _ h
    simp only [DeyeSolarData.tryFrom]
    cases hs : ((rustLines doc).foldl deyeLineStep DeyeAcc.init).serial with
    | none => exact ⟨_, rfl⟩
    | some sn =>
      rw [hp]
      exact ⟨_, rfl⟩
  · rw [show (17 / 5 : ℚ) = (rustParseF64 (strOf "3.4")).getD 0 from rustParseF64_34.symm,
        show (5001 / 10 : ℚ) = (rustParseF64 (strOf "500.1")).getD 0 from rustParseF64_5001.symm]
    rfl

/-- C4 witness: the hard-error branches at concrete inputs — a BBox
unparsable body at the Wan tag, and a document missing the now_p
assignment. -/
theorem parse_failure_aborts_amended_witness :
    bboxStep bboxWanStateEx (.response ⟨200, [], .unparsable⟩)
      = (bboxWanStateEx, .err, [])
    ∧ ∃ e, DeyeSolarData.tryFrom (strOf "var webdata_sn = \"X1\";") = .error e :=
  ⟨parse_failure_aborts_amended.1 bboxWanStateEx ⟨200, [], .unparsable⟩ (strOf "sid")
      rfl rfl rfl,
   parse_failure_aborts_amended.2.1 (strOf "var webdata_sn = \"X1\";") (by decide)⟩

/-! ## Publish discipline over whole cycles -/

theorem bboxStep_spec (a : BBoxState) (i : BBoxInput) :
    ((bboxStep a i).2.1 = .http → (bboxStep a i).2.2 = [] ∧ (bboxStep a i).1.meter = a.meter)
    ∧ ((bboxStep a i).2.1 = .err → (bboxStep a i).1 = a ∧ (bboxStep a i).2.2 = [])
    ∧ ((bboxStep a i).2.2 ≠ [] →
        (bboxStep a i).2.1 = .stop ∧ (bboxStep a i).1.state = .endState
          ∧ (bboxStep a i).2.2.length = 1) := by
  cases i with
  | hyperCanceled => simp [bboxStep]
  | hyperErr => simp [bboxStep]
  | otherErr => simp [bboxStep]
  | response r =>
    unfold bboxStep
    rcases a with ⟨bid, st, stats, meter⟩
    cases bid <;> simp only
    · split <;> [skip; simp]
      split <;> simp
    · split
      · split
        · simp
        · simp
        · split
          · simp
          · rename_i hne
            simp [BBoxApiResponse.take, not_ne_iff.mp hne]
      · split <;> simp

theorem runBBox_spec (a : BBoxState) (ins : List BBoxInput) :
    ((runBBox a ins).2.1 = .err →
        (runBBox a ins).2.2 = [] ∧ (runBBox a ins).1.meter = a.meter)
    ∧ ((runBBox a ins).2.1 = .http →
        (runBBox a ins).2.2 = [] ∧ (runBBox a ins).1.meter = a.meter)
    ∧ ((runBBox a ins).2.2 ≠ [] →
        (runBBox a ins).2.1 = .stop ∧ (runBBox a ins).1.state = .endState
          ∧ (runBBox a ins).2.2.length = 1) := by
  induction ins generalizing a with
  | nil => simp [runBBox]
  | cons i rest ih =>
    rcases hstep : bboxStep a i with ⟨a₁, o₁, p₁⟩
    have hs := bboxStep_spec a i
    rw [hstep] at hs
    dsimp only at hs
    cases o₁ with
    | http =>
      obtain ⟨hp, hm⟩ := hs.1 rfl
      subst hp
      rcases hrun : runBBox a₁ rest with ⟨a₂, o₂, p₂⟩
      have hr := ih a₁
      rw [hrun] at hr
      dsimp only at hr
      have hrw : runBBox a (i :: rest) = (a₂, o₂, p₂) := by
        simp only [runBBox, hstep, hrun, List.nil_append]
      rw [hrw]
      dsimp only
      refine ⟨fun h2 => ?_, fun h2 => ?_, fun h2 => ?_⟩
      · obtain ⟨hp2, hm2⟩ := hr.1 h2
        exact ⟨hp2, hm2.trans hm⟩
      · obtain ⟨hp2, hm2⟩ := hr.2.1 h2
        exact ⟨hp2, hm2.trans hm⟩
      · exact hr.2.2 h2
    | stop =>
      have hrw : runBBox a (i :: rest) = (a₁, .stop, p₁) := by
        simp only [runBBox, hstep]
      rw [hrw]
      dsimp only
      refine ⟨?_, ?_, fun h2 => ⟨rfl, (hs.2.2 h2).2.1, (hs.2.2 h2).2.2⟩⟩
      · intro h
        exact absurd h (by decide)
      · intro h
        exact absurd h (by decide)
    | err =>
      have hrw : runBBox a (i :: rest) = (a₁, .err, p₁) := by
        simp only [runBBox, hstep]
      rw [hrw]
      dsimp only
      obtain ⟨ha, hp⟩ := hs.2.1 rfl
      refine ⟨fun _ => ⟨hp, by rw [ha]⟩, ?_, fun h2 => absurd hp h2⟩
      intro h
      exact absurd h (by decide)

theorem deyeStep_spec (a : DeyeState) (r : DeyeResp) :
    ((deyeStep a r).2.1 = .http → (deyeStep a r).2.2 = [] ∧ (deyeStep a r).1.meter = a.meter)
    ∧ ((deyeStep a r).2.1 = .err → (deyeStep a r).1 = a ∧ (deyeStep a r).2.2 = [])
    ∧ ((deyeStep a r).2.2 ≠ [] →
        (deyeStep a r).2.1 = .stop ∧ (deyeStep a r).2.2.length = 1) := by
  unfold deyeStep
  split
  · split
    · simp
    · split <;> simp
  · split
    · split <;> simp
    · simp

theorem runDeye_spec (a : DeyeState) (rs : List DeyeResp) :
    ((runDeye a rs).2.1 = .err →
        (runDeye a rs).2.2 = [] ∧ (runDeye a rs).1.meter = a.meter)
    ∧ ((runDeye a rs).2.1 = .http →
        (runDeye a rs).2.2 = [] ∧ (runDeye a rs).1.meter = a.meter)
    ∧ ((runDeye a rs).2.2 ≠ [] →
        (runDeye a rs).2.1 = .stop ∧ (runDeye a rs).2.2.length = 1) := by
  induction rs generalizing a with
  | nil => simp [runDeye]
  | cons r rest ih =>
    rcases hstep : deyeStep a r with ⟨a₁, o₁, p₁⟩
    have hs := deyeStep_spec a r
    rw [hstep] at hs
    dsimp only at hs
    cases o₁ with
    | http =>
      obtain ⟨hp, hm⟩ := hs.1 rfl
      subst hp
      rcases hrun : runDeye a₁ rest with ⟨a₂, o₂, p₂⟩
      have hr := ih a₁
      rw [hrun] at hr
      dsimp only at hr
      have hrw : runDeye a (r :: rest) = (a₂, o₂, p₂) := by
        simp only [runDeye, hstep, hrun, List.nil_append]
      rw [hrw]
      dsimp only
      refine ⟨fun h2 => ?_, fun h2 => ?_, fun h2 => ?_⟩
      · obtain ⟨hp2, hm2⟩ := hr.1 h2
        exact ⟨hp2, hm2.trans hm⟩
      · obtain ⟨hp2, hm2⟩ := hr.2.1 h2
        exact ⟨hp2, hm2.trans hm⟩
      · exact hr.2.2 h2
    | stop =>
      have hrw : runDeye a (r :: rest) = (a₁, .stop, p₁) := by
        simp only [runDeye, hstep]
      rw [hrw]
      dsimp only
      refine ⟨?_, ?_, fun h2 => ⟨rfl, (hs.2.2 h2).2⟩⟩
      · intro h
        exact absurd h (by decide)
      · intro h
        exact absurd h (by decide)
    | err =>
      have hrw : runDeye a (r :: rest) = (a₁, .err, p₁) := by
        simp only [runDeye, hstep]
      rw [hrw]
      dsimp only
      obtain ⟨ha, hp⟩ := hs.2.1 rfl
      refine ⟨fun _ => ⟨hp, by rw [ha]⟩, ?_, fun h2 => absurd hp h2⟩
      intro h
      exact absurd h (by decide)

/-- C1 counterexample: a Freebox cycle whose Connection step succeeds and
whose System step then fails with a 500 ends in an error, yet a publish
happened during the aborted cycle and the `meter_conn` watch channel no
longer holds its pre-cycle value — the Freebox adaptor publishes per step,
not once at the terminal tag. -/
theorem freebox_partial_publish_on_error :
    runFbx fbxAuthedEx
        [.response ⟨200, .json successTrueBody⟩, .response ⟨500, .readErr⟩]
      = some ({ fbxAuthedEx with state := .system, meterConn := ⟨true, none⟩ },
              .err, [.conn ⟨true, none⟩])
    ∧ (⟨true, none⟩ : FreeboxApiResponse).success ≠ fbxAuthedEx.meterConn.success :=
  ⟨rfl, by decide⟩

/-- C1 amended: the claimed publish discipline holds for the BBox and Deye
adaptors — a cycle ending in an error publishes nothing and leaves the watch
channel's value exactly as it was before the cycle, any publish happens only
as the final action of the cycle (BBox: exactly at the transition into the
End tag, where the merged snapshot is sent once), and an aborted cycle never
publishes — while the Freebox adaptor publishes each step's result on its
per-category channel as soon as that step succeeds (see the
counterexample). -/
theorem publish_discipline_bbox_deye :
    (∀ (a : BBoxState) (ins : List BBoxInput),
        ((runBBox a ins).2.1 = .err →
          (runBBox a ins).2.2 = [] ∧ (runBBox a ins).1.meter = a.meter)
        ∧ ((runBBox a ins).2.2 ≠ [] →
          (runBBox a ins).2.1 = .stop ∧ (runBBox a ins).1.state = .endState
            ∧ (runBBox a ins).2.2.length = 1))
    ∧ (∀ (a : BBoxState) (r : BBoxHttpResp) (l : List BBoxApiResponse) (idTok : RStr),
        a.bboxId = some idTok → r.status = 200 → r.body = .frags l →
        a.state.nextState = .endState →
        bboxStep a (.response r)
          = ({ a with stats := BBoxApiResponse.empty, state := .endState,
                      meter := l.foldl BBoxApiResponse.merge a.stats },
             .stop, [l.foldl BBoxApiResponse.merge a.stats]))
    ∧ (∀ (a : DeyeState) (rs : List DeyeResp),
        ((runDeye a rs).2.1 = .err →
          (runDeye a rs).2.2 = [] ∧ (runDeye a rs).1.meter = a.meter)
        ∧ ((runDeye a rs).2.2 ≠ [] →
          (runDeye a rs).2.1 = .stop ∧ (runDeye a rs).2.2.length = 1)) := by
  refine ⟨?_, ?_, ?_⟩
  · intro a ins
    exact ⟨(runBBox_spec a ins).1, (runBBox_spec a ins).2.2⟩
  · intro a r l idTok hid hst hb hnext
    simp [bboxStep, hid, hst, hb, hnext, BBoxApiResponse.take]
  · intro a rs
    exact ⟨(runDeye_spec a rs).1, (runDeye_spec a rs).2.2⟩

/-- C1 witness: an error-ending BBox cycle and an error-ending Deye cycle at
concrete inputs publish nothing and leave their channel values unchanged,
and the single BBox publish happens exactly at a concrete End transition. -/
theorem publish_discipline_bbox_deye_witness :
    ((runBBox bboxWanStateEx [.response ⟨500, [], .readErr⟩]).2.2 = []
      ∧ (runBBox bboxWanStateEx [.response ⟨500, [], .readErr⟩]).1.meter
          = bboxWanStateEx.meter)
    ∧ bboxStep bboxLastStepEx (.response ⟨200, [], .frags []⟩)
        = (⟨some (strOf "sid"), .endState, BBoxApiResponse.empty,
              List.foldl BBoxApiResponse.merge bboxLastStepEx.stats []⟩,
           .stop, [List.foldl BBoxApiResponse.merge bboxLastStepEx.stats []])
    ∧ ((runDeye ⟨DeyeSolarData.empty⟩ [⟨500, false, .error ()⟩]).2.2 = []
      ∧ (runDeye ⟨DeyeSolarData.empty⟩ [⟨500, false, .error ()⟩]).1.meter
          = (⟨DeyeSolarData.empty⟩ : DeyeState).meter) :=
  ⟨(publish_discipline_bbox_deye.1 bboxWanStateEx
      [.response ⟨500, [], .readErr⟩]).1 rfl,
   publish_discipline_bbox_deye.2.1 bboxLastStepEx ⟨200, [], .frags []⟩ []
      (strOf "sid") rfl rfl rfl rfl,
   (publish_discipline_bbox_deye.2.2 ⟨DeyeSolarData.empty⟩
      [⟨500, false, .error ()⟩]).1 rfl⟩

/-- C9 witness: a fragment whose ssid object has no numeric `id` leaves a
populated wireless category untouched while its device fragment merges. -/
theorem bbox_wireless_missing_id_dropped_witness :
    (wirelessSnapEx.merge wirelessFragEx).wireless = wirelessSnapEx.wireless
    ∧ (wirelessSnapEx.merge wirelessFragEx).device
        = mergeCat wirelessSnapEx.device wirelessFragEx.device :=
  ⟨(bbox_wireless_missing_id_dropped wirelessSnapEx wirelessFragEx
      [("ssid", .str "oops")] rfl rfl).1,
   (bbox_wireless_missing_id_dropped wirelessSnapEx wirelessFragEx
      [("ssid", .str "oops")] rfl rfl).2.1⟩
